import Mathlib

/-!
Shallow embedding of `cloud/__init__.py` from the cloud-vm-pricing repository.

Python `Decimal` values and the numeric fields of the API line-items are
modelled as exact rationals (`ℚ`); `Decimal.quantize(Decimal('1e-4'))` under
the default ROUND_HALF_EVEN context is `quantize4`.  Python runtime errors
(TypeError, AttributeError, decimal.DivisionByZero, decimal.InvalidOperation,
AssertionError) are modelled by `PyError`, and fallible functions return
`Except PyError _`.  The two packaged JSON catalogs (`regions.json`,
`azure.json`) and the HTTP response of the Azure retail-prices API are not
part of the source tree; they enter the embedding as explicit parameters
(`regions`, `azure_vms`, `items`).
-/

/-- Python `str.lower()` restricted to the ASCII range, on Lean strings. -/
def strLower (s : String) : String := String.mk (s.data.map Char.toLower)

/-- Does the second list start with the first one. -/
def leadsWith : List Char → List Char → Bool
  | [], _ => true
  | _ :: _, [] => false
  | a :: as, b :: bs => a == b && leadsWith as bs

/-- Is `sub` a contiguous sublist of the second argument. -/
def hasSubList (sub : List Char) : List Char → Bool
  | [] => leadsWith sub []
  | b :: bs => leadsWith sub (b :: bs) || hasSubList sub bs

/-- Python substring test `sub in s`. -/
def strContains (s sub : String) : Bool := hasSubList sub.data s.data

/-- Round a rational to an integer with ROUND_HALF_EVEN (banker's rounding),
the default rounding of Python's `decimal` module. -/
def roundHalfEven (q : ℚ) : ℤ :=
  let f : ℤ := ⌊q⌋
  let r : ℚ := q - (f : ℚ)
  if r < 1/2 then f
  else if r = 1/2 then (if f % 2 = 0 then f else f + 1)
  else f + 1

/-- Python `Decimal.quantize(Decimal('1e-4'))`: round to 4 fractional decimal
digits with the default ROUND_HALF_EVEN rounding. -/
def quantize4 (q : ℚ) : ℚ := ((roundHalfEven (q * 10000) : ℤ) : ℚ) / 10000

/-- Python runtime errors that the embedded code can raise. -/
inductive PyError
  /-- e.g. `None / Decimal(...)`: unsupported operand type -/
  | typeError
  /-- attribute access on `None` (`'NoneType' object has no attribute ...`) -/
  | attributeError
  /-- `decimal.DivisionByZero`: nonzero Decimal divided by zero -/
  | divisionByZero
  /-- `decimal.InvalidOperation`: `Decimal(0) / Decimal(0)` -/
  | invalidOperation
  /-- a failed `assert cond, msg` -/
  | assertionError (msg : String)
  deriving DecidableEq, Repr

/-- One raw line-item of the Azure Retail Prices API response (`Items` array).
`productName`, `skuName`, `currencyCode` and `retailPrice` are accessed as
required fields by the source; `reservationTerm` is read with
`i.get("reservationTerm", "")`, hence optional. -/
structure Item where
  productName : String
  skuName : String
  reservationTerm : Option String
  retailPrice : ℚ
  currencyCode : String
  deriving DecidableEq, Repr

/-- `VMPrice` dataclass: the normalized hourly price record. -/
structure VMPrice where
  currency_type : Option String
  one_yr_res_per_hr : Option ℚ
  three_yr_res_per_hr : Option ℚ
  spot_price_per_hr : Option ℚ
  price_per_hr : Option ℚ
  region : String
  deriving DecidableEq, Repr

/-- `PhotonSku` enum. -/
inductive PhotonSku
  | NO_PHOTON
  | PHOTON_JOBS
  | PHOTON_INTERACTIVE
  deriving DecidableEq, Repr

/-- Python `str(sku)` on a `PhotonSku` enum member. -/
def PhotonSku.str : PhotonSku → String
  | .NO_PHOTON => "PhotonSku.NO_PHOTON"
  | .PHOTON_JOBS => "PhotonSku.PHOTON_JOBS"
  | .PHOTON_INTERACTIVE => "PhotonSku.PHOTON_INTERACTIVE"

/-- `PhotonMultiplier` dataclass. -/
structure PhotonMultiplier where
  job_dbu_multiplier : ℚ
  interactive_dbu_multiplier : ℚ
  deriving DecidableEq, Repr

/-- `VMPricePerDBU` dataclass: prices per DBU-hour for one photon sku. -/
structure VMPricePerDBU where
  currency_type : Option String
  one_yr_res_per_dbu : Option ℚ
  three_yr_res_per_dbu : Option ℚ
  spot_price_per_dbu : Option ℚ
  price_per_dbu : Option ℚ
  region : String
  sku : String
  deriving DecidableEq, Repr

/-- `VMInfo` dataclass.  The `price` field is declared as `VMPrice` in the
source, but `get_price` assigns it the possibly-`None` result of
`get_azure_vm_price`, so at runtime it is optional. -/
structure VMInfo where
  name : String
  dbu_per_hr : ℚ
  cpu_cores : ℕ
  memory : ℕ
  price : Option VMPrice
  dbu_prices : List VMPricePerDBU
  deriving DecidableEq, Repr

/-- Division of two Python `Decimal`s with the error semantics of the
`decimal` module: a nonzero value divided by zero raises
`decimal.DivisionByZero`, zero divided by zero raises
`decimal.InvalidOperation`. -/
def decDiv (a b : ℚ) : Except PyError ℚ :=
  if b = 0 then
    (if a = 0 then .error .invalidOperation else .error .divisionByZero)
  else .ok (a / b)

/-- One facet division `vm_info.price.<facet> / dbus` as executed by the
source: if the facet is `None`, Python raises `TypeError` (unsupported
operand types for `/`: 'NoneType' and 'Decimal'); otherwise Decimal
division. -/
def facetDiv (a : Option ℚ) (dbus : ℚ) : Except PyError ℚ :=
  match a with
  | none => .error .typeError
  | some p => decDiv p dbus

/-- `VMPricePerDBU.from_vm_info` (source lines 63-74).  Computes
`dbus = Decimal(vm_info.dbu_per_hr) * Decimal(multiplier)` and then divides
each of the four facets of `vm_info.price` by `dbus`, quantizing each
quotient to 4 decimal digits.  Field expressions are evaluated in source
order: the `vm_info.price.currency_type` access raises AttributeError when
`price` is `None`, and the facet divisions run in the order one-year,
three-year, spot, on-demand. -/
def VMPricePerDBU.from_vm_info (vm_info : VMInfo) (sku : PhotonSku)
    (multiplier : ℚ) : Except PyError VMPricePerDBU :=
  let dbus : ℚ := vm_info.dbu_per_hr * multiplier
  match vm_info.price with
  | none => .error .attributeError
  | some price =>
    match facetDiv price.one_yr_res_per_hr dbus with
    | .error e => .error e
    | .ok o1 =>
      match facetDiv price.three_yr_res_per_hr dbus with
      | .error e => .error e
      | .ok o3 =>
        match facetDiv price.spot_price_per_hr dbus with
        | .error e => .error e
        | .ok os =>
          match facetDiv price.price_per_hr dbus with
          | .error e => .error e
          | .ok od => .ok {
              currency_type := price.currency_type,
              one_yr_res_per_dbu := some (quantize4 o1),
              three_yr_res_per_dbu := some (quantize4 o3),
              spot_price_per_dbu := some (quantize4 os),
              price_per_dbu := some (quantize4 od),
              region := price.region,
              sku := sku.str }

/-- The filter of the normalizer loop (source line 126): discard the item
when its product name contains "windows" or its SKU name contains
"low priority", case-insensitively. -/
def isFilteredOut (i : Item) : Bool :=
  strContains (strLower i.productName) "windows" ||
    strContains (strLower i.skuName) "low priority"

/-- One iteration of the normalizer loop of `get_azure_vm_price`
(source lines 125-138) applied to the accumulator record. -/
def processItem (vp : VMPrice) (i : Item) : VMPrice :=
  if isFilteredOut i then vp
  else
    let vp' :=
      if strLower (i.reservationTerm.getD "") = "1 year" then
        { vp with one_yr_res_per_hr := some (quantize4 (i.retailPrice / 8760)) }
      else if strLower (i.reservationTerm.getD "") = "3 years" then
        { vp with three_yr_res_per_hr := some (quantize4 (i.retailPrice / 26280)) }
      else if strContains (strLower i.skuName) "spot" then
        { vp with spot_price_per_hr := some (quantize4 i.retailPrice) }
      else
        { vp with price_per_hr := some (quantize4 i.retailPrice) }
    { vp' with currency_type := some i.currencyCode }

/-- The record `get_azure_vm_price` starts from (source lines 116-123). -/
def initVMPrice : VMPrice :=
  { currency_type := some "USD",
    one_yr_res_per_hr := none,
    three_yr_res_per_hr := none,
    spot_price_per_hr := none,
    price_per_hr := none,
    region := "eastus2" }

/-- `get_azure_vm_price` (source lines 108-142), with the `Items` array of
the HTTP response passed in as `items`.  Folds the loop body over the
line-items and returns `none` when no item populated `price_per_hr`. -/
def get_azure_vm_price (region : String) (items : List Item) :
    Option VMPrice :=
  let _ := region
  let vm_price := items.foldl processItem initVMPrice
  match vm_price.price_per_hr with
  | none => none
  | some _ => some vm_price

/-- One entry of the `azure.json` instance catalog: the keyword fields merged
into `VMInfo` by `get_price` via `**azure_vms[vm_name]`. -/
structure CatalogEntry where
  dbu_per_hr : ℚ
  cpu_cores : ℕ
  memory : ℕ
  deriving DecidableEq, Repr

/-- Python dict lookup on an association list (the `azure.json` mapping). -/
def dictLookup (vm_name : String) :
    List (String × CatalogEntry) → Option CatalogEntry
  | [] => none
  | (k, v) :: rest => if k = vm_name then some v else dictLookup vm_name rest

/-- `get_dbu_prices` (source lines 166-171): the three-element list of
per-DBU prices, in the order base (NO_PHOTON, multiplier 1.0), interactive,
jobs.  Any error of `from_vm_info` propagates. -/
def get_dbu_prices (vm_info : VMInfo) (multiplier : PhotonMultiplier) :
    Except PyError (List VMPricePerDBU) :=
  match VMPricePerDBU.from_vm_info vm_info .NO_PHOTON 1 with
  | .error e => .error e
  | .ok a =>
    match VMPricePerDBU.from_vm_info vm_info .PHOTON_INTERACTIVE
        multiplier.interactive_dbu_multiplier with
    | .error e => .error e
    | .ok b =>
      match VMPricePerDBU.from_vm_info vm_info .PHOTON_JOBS
          multiplier.job_dbu_multiplier with
      | .error e => .error e
      | .ok c => .ok [a, b, c]

/-- The multiplier constants of `get_price` (source line 179). -/
def azurePhotonMultiplier : PhotonMultiplier :=
  { job_dbu_multiplier := 5/2, interactive_dbu_multiplier := 23/10 }

/-- `get_price` (source lines 174-190).  The two catalogs and the fetched
line-items are parameters; `regions` stands for `all_regions["azure"]` and
`azure_vms` for the `azure.json` mapping.  The failed `assert` raises
AssertionError with the message "Not a valid region!". -/
def get_price (regions : List String)
    (azure_vms : List (String × CatalogEntry)) (items : List Item)
    (region : String) (vm_name : String) : Except PyError (Option VMInfo) :=
  if region ∈ regions then
    match dictLookup vm_name azure_vms with
    | none => .ok none
    | some entry =>
      let price := get_azure_vm_price region items
      let vm_info : VMInfo :=
        { name := vm_name, dbu_per_hr := entry.dbu_per_hr,
          cpu_cores := entry.cpu_cores, memory := entry.memory,
          price := price, dbu_prices := [] }
      match get_dbu_prices vm_info azurePhotonMultiplier with
      | .error e => .error e
      | .ok l => .ok (some { vm_info with dbu_prices := l })
  else .error (.assertionError "Not a valid region!")

/-! ### Helper lemmas -/

/-- No branch of the loop body ever assigns the `region` field. -/
lemma processItem_region (vp : VMPrice) (i : Item) :
    (processItem vp i).region = vp.region := by
  unfold processItem
  split
  · rfl
  · split
    · rfl
    · split
      · rfl
      · split <;> rfl

/-- Folding the loop body never changes the `region` field. -/
lemma foldl_processItem_region (items : List Item) : ∀ vp : VMPrice,
    (items.foldl processItem vp).region = vp.region := by
  induction items with
  | nil => intro vp; rfl
  | cons i is ih =>
    intro vp
    rw [List.foldl_cons, ih, processItem_region]

/-- A filtered-out item leaves the accumulator unchanged. -/
lemma processItem_filteredOut (vp : VMPrice) (i : Item)
    (h : isFilteredOut i = true) : processItem vp i = vp := by
  unfold processItem
  rw [if_pos h]

/-- Dropping the filtered-out items from the list does not change the fold. -/
lemma foldl_processItem_filter (items : List Item) : ∀ vp : VMPrice,
    (items.filter (fun i => !isFilteredOut i)).foldl processItem vp =
      items.foldl processItem vp := by
  induction items with
  | nil => intro vp; rfl
  | cons i is ih =>
    intro vp
    by_cases h : isFilteredOut i = true
    · rw [List.filter_cons, List.foldl_cons, processItem_filteredOut vp i h]
      simp [h, ih]
    · simp only [Bool.not_eq_true] at h
      rw [List.filter_cons, List.foldl_cons]
      simp [h, ih]

/-- The record `from_vm_info` produces for price record `p` with facets
`a`, `b`, `c`, `d` and effective DBU count `dbus`. -/
def perDBURecord (p : VMPrice) (a b c d dbus : ℚ) (sku : PhotonSku) :
    VMPricePerDBU :=
  { currency_type := p.currency_type,
    one_yr_res_per_dbu := some (quantize4 (a / dbus)),
    three_yr_res_per_dbu := some (quantize4 (b / dbus)),
    spot_price_per_dbu := some (quantize4 (c / dbus)),
    price_per_dbu := some (quantize4 (d / dbus)),
    region := p.region,
    sku := sku.str }

/-- When the price record is present, all four facets are present and the
effective DBU count is nonzero, `from_vm_info` succeeds with each facet
divided by the effective DBU count and quantized. -/
lemma from_vm_info_ok (vm : VMInfo) (p : VMPrice) (a b c d : ℚ)
    (sku : PhotonSku) (m : ℚ) (hp : vm.price = some p)
    (h1 : p.one_yr_res_per_hr = some a) (h3 : p.three_yr_res_per_hr = some b)
    (hs : p.spot_price_per_hr = some c) (hd : p.price_per_hr = some d)
    (hm : vm.dbu_per_hr * m ≠ 0) :
    VMPricePerDBU.from_vm_info vm sku m =
      .ok (perDBURecord p a b c d (vm.dbu_per_hr * m) sku) := by
  simp only [VMPricePerDBU.from_vm_info, hp, h1, h3, hs, hd, facetDiv, decDiv,
    if_neg hm, perDBURecord]

/-- A successful `from_vm_info` tags its output with `str(sku)`. -/
lemma from_vm_info_sku (vm : VMInfo) (sku : PhotonSku) (m : ℚ)
    (x : VMPricePerDBU) (h : VMPricePerDBU.from_vm_info vm sku m = .ok x) :
    x.sku = sku.str := by
  simp only [VMPricePerDBU.from_vm_info] at h
  split at h
  · exact Except.noConfusion h
  · split at h
    · exact Except.noConfusion h
    · split at h
      · exact Except.noConfusion h
      · split at h
        · exact Except.noConfusion h
        · split at h
          · exact Except.noConfusion h
          · injection h with h
            subst h
            rfl

/-- A successful `get_dbu_prices` decomposes into three successful
`from_vm_info` calls, in the order base, interactive, jobs. -/
lemma get_dbu_prices_ok (vm : VMInfo) (mult : PhotonMultiplier)
    (l : List VMPricePerDBU) (h : get_dbu_prices vm mult = .ok l) :
    ∃ x y z, VMPricePerDBU.from_vm_info vm .NO_PHOTON 1 = .ok x ∧
      VMPricePerDBU.from_vm_info vm .PHOTON_INTERACTIVE
        mult.interactive_dbu_multiplier = .ok y ∧
      VMPricePerDBU.from_vm_info vm .PHOTON_JOBS
        mult.job_dbu_multiplier = .ok z ∧
      l = [x, y, z] := by
  unfold get_dbu_prices at h
  cases e1 : VMPricePerDBU.from_vm_info vm .NO_PHOTON 1 with
  | error e => simp only [e1] at h; exact Except.noConfusion h
  | ok x =>
    simp only [e1] at h
    cases e2 : VMPricePerDBU.from_vm_info vm .PHOTON_INTERACTIVE
        mult.interactive_dbu_multiplier with
    | error e => simp only [e2] at h; exact Except.noConfusion h
    | ok y =>
      simp only [e2] at h
      cases e3 : VMPricePerDBU.from_vm_info vm .PHOTON_JOBS
          mult.job_dbu_multiplier with
      | error e => simp only [e3] at h; exact Except.noConfusion h
      | ok z =>
        simp only [e3] at h
        injection h with h
        exact ⟨x, y, z, rfl, rfl, rfl, h.symm⟩

/-! ### Concrete inputs used by witnesses and counterexample evaluations -/

/-- A normalizer output with only the on-demand facet present, as produced
when the API returns a single plain consumption item. -/
def priceOnlyOd : VMPrice :=
  { currency_type := some "USD", one_yr_res_per_hr := none,
    three_yr_res_per_hr := none, spot_price_per_hr := none,
    price_per_hr := some 1, region := "eastus2" }

/-- An instance whose price record lacks the reservation facets. -/
def vmMissingOneYr : VMInfo :=
  { name := "Standard_D3_v2", dbu_per_hr := 1, cpu_cores := 4, memory := 14,
    price := some priceOnlyOd, dbu_prices := [] }

/-- A price record with every facet present except the spot facet. -/
def priceNoSpot : VMPrice :=
  { currency_type := some "USD", one_yr_res_per_hr := some 1,
    three_yr_res_per_hr := some 1, spot_price_per_hr := none,
    price_per_hr := some 1, region := "eastus2" }

/-- An instance with a positive DBU rate but an absent spot facet. -/
def vmNoSpot : VMInfo :=
  { name := "Standard_D3_v2", dbu_per_hr := 2, cpu_cores := 4, memory := 14,
    price := some priceNoSpot, dbu_prices := [] }

/-- A fully populated price record with every facet equal to 1. -/
def priceAllOne : VMPrice :=
  { currency_type := some "USD", one_yr_res_per_hr := some 1,
    three_yr_res_per_hr := some 1, spot_price_per_hr := some 1,
    price_per_hr := some 1, region := "eastus2" }

/-- A catalog entry with a zero DBU rate (bad catalog data). -/
def vmZeroDbu : VMInfo :=
  { name := "Standard_D3_v2", dbu_per_hr := 0, cpu_cores := 4, memory := 14,
    price := some priceAllOne, dbu_prices := [] }

/-- A fully populated price record with facets 23, 46, 69, 92. -/
def pW : VMPrice :=
  { currency_type := some "USD", one_yr_res_per_hr := some 23,
    three_yr_res_per_hr := some 46, spot_price_per_hr := some 69,
    price_per_hr := some 92, region := "eastus2" }

/-- An instance with DBU rate 10 and the fully populated price record. -/
def vmW : VMInfo :=
  { name := "Standard_D3_v2", dbu_per_hr := 10, cpu_cores := 4, memory := 14,
    price := some pW, dbu_prices := [] }

/-- A surviving 1-year reservation line-item. -/
def itemOneYear : Item :=
  { productName := "Virtual Machines D Series", skuName := "D3 v2",
    reservationTerm := some "1 Year", retailPrice := 1750,
    currencyCode := "USD" }

/-- A surviving plain on-demand (consumption) line-item. -/
def itemOd : Item :=
  { productName := "Virtual Machines D Series", skuName := "D3 v2",
    reservationTerm := none, retailPrice := 2, currencyCode := "USD" }

/-- The record the normalizer produces from `[itemOd]`. -/
def vpOd : VMPrice :=
  { currency_type := some "USD", one_yr_res_per_hr := none,
    three_yr_res_per_hr := none, spot_price_per_hr := none,
    price_per_hr := some (quantize4 2), region := "eastus2" }

/-! ### Claim theorems -/

/-- C1: the claim says that for a valid region and a cataloged instance name,
when the normalizer returns the absent result (no on-demand item), `get_price`
returns the absent result rather than raising.  The code instead raises: with
valid region "eastus2", cataloged name "Standard_D3_v2" and an empty
line-item list, `get_azure_vm_price` returns the absent result, and
`get_price` then evaluates `vm_info.price.currency_type` on `None` inside
`VMPricePerDBU.from_vm_info`, raising AttributeError. -/
theorem C1_price_unavailable_crashes :
    get_azure_vm_price "eastus2" [] = none ∧
    get_price ["eastus2"] [("Standard_D3_v2", ⟨1, 4, 14⟩)] []
      "eastus2" "Standard_D3_v2" = .error .attributeError :=
  ⟨rfl, rfl⟩

/-- C2: the claim says `VMPricePerDBU.from_vm_info` divides a facet only when
it is present, keeps absent facets absent, and raises no error.  The code
divides every facet unconditionally: on an `HourlyPrice` whose one-year
facet is `None` (with DBU count 1 and on-demand price present), Python
evaluates `None / dbus` and raises TypeError instead. -/
theorem C2_absent_facet_crashes :
    VMPricePerDBU.from_vm_info vmMissingOneYr .NO_PHOTON 1 =
      .error .typeError :=
  rfl

/-- C3: line-items whose product name contains "windows" or whose SKU name
contains "low priority" (case-insensitively) never influence the normalized
record: the normalizer over the full item list equals the normalizer over
the sublist with those items removed. -/
theorem C3_filtered_items_no_influence (region : String) (items : List Item) :
    get_azure_vm_price region items =
      get_azure_vm_price region (items.filter (fun i => !isFilteredOut i)) := by
  unfold get_azure_vm_price
  rw [foldl_processItem_filter]

/-- C4: with DBU rate `D > 0` and on-demand price `d` (all four facets
present so that derivation succeeds), the derived list has on-demand per-DBU
prices `quantize4 (d / D)` for the base tier, `quantize4 (d / (D * 2.3))`
for the interactive tier and `quantize4 (d / (D * 2.5))` for the jobs
tier. -/
theorem C4_tier_multipliers (vm : VMInfo) (p : VMPrice) (a b c d : ℚ)
    (hp : vm.price = some p) (h1 : p.one_yr_res_per_hr = some a)
    (h3 : p.three_yr_res_per_hr = some b) (hs : p.spot_price_per_hr = some c)
    (hd : p.price_per_hr = some d) (hD : 0 < vm.dbu_per_hr) :
    ∃ l, get_dbu_prices vm azurePhotonMultiplier = .ok l ∧
      l.map (fun x => x.price_per_dbu) =
        [some (quantize4 (d / vm.dbu_per_hr)),
         some (quantize4 (d / (vm.dbu_per_hr * (23/10)))),
         some (quantize4 (d / (vm.dbu_per_hr * (5/2))))] := by
  have hm1 : vm.dbu_per_hr * 1 ≠ 0 := by positivity
  have hm2 : vm.dbu_per_hr * (23/10) ≠ 0 := by positivity
  have hm3 : vm.dbu_per_hr * (5/2) ≠ 0 := by positivity
  refine ⟨[perDBURecord p a b c d (vm.dbu_per_hr * 1) .NO_PHOTON,
           perDBURecord p a b c d (vm.dbu_per_hr * (23/10)) .PHOTON_INTERACTIVE,
           perDBURecord p a b c d (vm.dbu_per_hr * (5/2)) .PHOTON_JOBS],
         ?_, ?_⟩
  · simp only [get_dbu_prices, azurePhotonMultiplier,
      from_vm_info_ok vm p a b c d .NO_PHOTON 1 hp h1 h3 hs hd hm1,
      from_vm_info_ok vm p a b c d .PHOTON_INTERACTIVE (23/10) hp h1 h3 hs hd hm2,
      from_vm_info_ok vm p a b c d .PHOTON_JOBS (5/2) hp h1 h3 hs hd hm3]
  · simp [perDBURecord, mul_one]

/-- C4 witness: the hypotheses of `C4_tier_multipliers` hold at the concrete
instance `vmW` (DBU rate 10, on-demand price 92). -/
theorem C4_tier_multipliers_witness :
    (0 : ℚ) < vmW.dbu_per_hr ∧
    (∃ l, get_dbu_prices vmW azurePhotonMultiplier = .ok l ∧
      l.map (fun x => x.price_per_dbu) =
        [some (quantize4 (92 / vmW.dbu_per_hr)),
         some (quantize4 (92 / (vmW.dbu_per_hr * (23/10)))),
         some (quantize4 (92 / (vmW.dbu_per_hr * (5/2))))]) :=
  ⟨by norm_num [vmW],
   C4_tier_multipliers vmW pW 23 46 69 92 rfl rfl rfl rfl rfl
     (by norm_num [vmW])⟩

/-- C5: a surviving line-item whose reservation-term label equals "1 year"
(case-insensitively) sets the one-year facet to its retail price divided by
8760 and quantized to 4 decimal digits with the decimal library's
ROUND_HALF_EVEN; label "3 years" sets the three-year facet with divisor
26280. -/
theorem C5_reservation_term_conversion (vp : VMPrice) (i : Item)
    (hf : isFilteredOut i = false) :
    (strLower (i.reservationTerm.getD "") = "1 year" →
      (processItem vp i).one_yr_res_per_hr =
        some (quantize4 (i.retailPrice / 8760))) ∧
    (strLower (i.reservationTerm.getD "") = "3 years" →
      (processItem vp i).three_yr_res_per_hr =
        some (quantize4 (i.retailPrice / 26280))) := by
  constructor <;> intro h <;> simp [processItem, hf, h]

/-- C5 witness: the hypotheses of `C5_reservation_term_conversion` hold for
the concrete surviving item `itemOneYear` with label "1 Year". -/
theorem C5_reservation_term_conversion_witness :
    isFilteredOut itemOneYear = false ∧
    strLower (itemOneYear.reservationTerm.getD "") = "1 year" ∧
    (processItem initVMPrice itemOneYear).one_yr_res_per_hr =
      some (quantize4 (itemOneYear.retailPrice / 8760)) :=
  ⟨rfl, rfl,
   (C5_reservation_term_conversion initVMPrice itemOneYear rfl).1 rfl⟩

/-- C6: whenever `get_dbu_prices` succeeds, the resulting list has exactly
three entries, tagged in order with the base (NO_PHOTON) sku, the
interactive sku and the jobs sku. -/
theorem C6_tier_order (vm : VMInfo) (mult : PhotonMultiplier)
    (l : List VMPricePerDBU) (h : get_dbu_prices vm mult = .ok l) :
    l.length = 3 ∧ l.map (fun x => x.sku) =
      [PhotonSku.NO_PHOTON.str, PhotonSku.PHOTON_INTERACTIVE.str,
       PhotonSku.PHOTON_JOBS.str] := by
  obtain ⟨x, y, z, e1, e2, e3, rfl⟩ := get_dbu_prices_ok vm mult l h
  refine ⟨rfl, ?_⟩
  rw [List.map_cons, List.map_cons, List.map_cons, List.map_nil,
    from_vm_info_sku vm .NO_PHOTON 1 x e1,
    from_vm_info_sku vm .PHOTON_INTERACTIVE mult.interactive_dbu_multiplier y e2,
    from_vm_info_sku vm .PHOTON_JOBS mult.job_dbu_multiplier z e3]

/-- The list `get_dbu_prices` produces on `vmW`. -/
def lW : List VMPricePerDBU :=
  [perDBURecord pW 23 46 69 92 (vmW.dbu_per_hr * 1) .NO_PHOTON,
   perDBURecord pW 23 46 69 92 (vmW.dbu_per_hr * (23/10)) .PHOTON_INTERACTIVE,
   perDBURecord pW 23 46 69 92 (vmW.dbu_per_hr * (5/2)) .PHOTON_JOBS]

/-- C6 witness: the hypothesis of `C6_tier_order` holds at the concrete
instance `vmW`, whose derivation succeeds with the list `lW`. -/
theorem C6_tier_order_witness :
    get_dbu_prices vmW azurePhotonMultiplier = .ok lW ∧
    (lW.length = 3 ∧ lW.map (fun x => x.sku) =
      [PhotonSku.NO_PHOTON.str, PhotonSku.PHOTON_INTERACTIVE.str,
       PhotonSku.PHOTON_JOBS.str]) := by
  have hW : get_dbu_prices vmW azurePhotonMultiplier = .ok lW := by
    simp only [lW, get_dbu_prices, azurePhotonMultiplier,
      from_vm_info_ok vmW pW 23 46 69 92 .NO_PHOTON 1 rfl rfl rfl rfl rfl
        (by norm_num [vmW]),
      from_vm_info_ok vmW pW 23 46 69 92 .PHOTON_INTERACTIVE (23/10) rfl rfl
        rfl rfl rfl (by norm_num [vmW]),
      from_vm_info_ok vmW pW 23 46 69 92 .PHOTON_JOBS (5/2) rfl rfl rfl rfl
        rfl (by norm_num [vmW])]
  exact ⟨hW, C6_tier_order vmW azurePhotonMultiplier lW hW⟩

/-- C7: for any region outside the provider's valid-region list and any
instance name whatsoever, `get_price` raises the failed-assertion
InvalidRegion condition ("Not a valid region!") instead of returning any
result. -/
theorem C7_invalid_region (regions : List String)
    (azure_vms : List (String × CatalogEntry)) (items : List Item)
    (region vm_name : String) (h : region ∉ regions) :
    get_price regions azure_vms items region vm_name =
      .error (.assertionError "Not a valid region!") := by
  simp [get_price, h]

/-- C7 witness: the hypothesis of `C7_invalid_region` holds for the concrete
region "not-a-real-region" against the region list ["eastus2"]. -/
theorem C7_invalid_region_witness :
    "not-a-real-region" ∉ ["eastus2"] ∧
    get_price ["eastus2"] [("Standard_D3_v2", ⟨1, 4, 14⟩)] []
      "not-a-real-region" "any-vm" =
        .error (.assertionError "Not a valid region!") :=
  ⟨by decide,
   C7_invalid_region ["eastus2"] [("Standard_D3_v2", ⟨1, 4, 14⟩)] []
     "not-a-real-region" "any-vm" (by decide)⟩

/-- C8: for any region in the valid-region list and any instance name absent
from the instance catalog, `get_price` returns the absent result and raises
no error. -/
theorem C8_unknown_instance_none (regions : List String)
    (azure_vms : List (String × CatalogEntry)) (items : List Item)
    (region vm_name : String) (hr : region ∈ regions)
    (hv : dictLookup vm_name azure_vms = none) :
    get_price regions azure_vms items region vm_name = .ok none := by
  simp [get_price, hr, hv]

/-- C8 witness: the hypotheses of `C8_unknown_instance_none` hold for the
valid region "eastus2" and the uncataloged name "nonexistent-vm-name". -/
theorem C8_unknown_instance_none_witness :
    "eastus2" ∈ ["eastus2"] ∧
    dictLookup "nonexistent-vm-name" [("Standard_D3_v2", ⟨1, 4, 14⟩)] = none ∧
    get_price ["eastus2"] [("Standard_D3_v2", ⟨1, 4, 14⟩)] []
      "eastus2" "nonexistent-vm-name" = .ok none :=
  ⟨by decide, rfl,
   C8_unknown_instance_none ["eastus2"] [("Standard_D3_v2", ⟨1, 4, 14⟩)] []
     "eastus2" "nonexistent-vm-name" (by decide) rfl⟩

/-- C9: the claim says derivation raises DivisionByZero whenever the
effective DBU count is zero, and succeeds without raising for every positive
rate and multiplier.  The first half holds when the facets are present: on
`vmZeroDbu` (rate 0, all facets present) dividing by zero raises
decimal.DivisionByZero.  The second half fails on the code: on `vmNoSpot`
(rate 2, multiplier 1, spot facet absent) derivation raises TypeError
instead of succeeding. -/
theorem C9_zero_rate_and_missing_facet :
    VMPricePerDBU.from_vm_info vmZeroDbu .NO_PHOTON 1 =
      .error .divisionByZero ∧
    VMPricePerDBU.from_vm_info vmNoSpot .NO_PHOTON 1 = .error .typeError := by
  constructor
  · simp [VMPricePerDBU.from_vm_info, vmZeroDbu, priceAllOne, facetDiv, decDiv]
  · simp [VMPricePerDBU.from_vm_info, vmNoSpot, priceNoSpot, facetDiv, decDiv]

/-- C10: whatever region is requested and whatever line-items come back, the
`region` field of the record the normalizer returns is the hard-coded
literal "eastus2". -/
theorem C10_region_hardcoded (region : String) (items : List Item)
    (vp : VMPrice) (h : get_azure_vm_price region items = some vp) :
    vp.region = "eastus2" := by
  unfold get_azure_vm_price at h
  cases e : (items.foldl processItem initVMPrice).price_per_hr with
  | none => simp only [e] at h; exact Option.noConfusion h
  | some q =>
    simp only [e] at h
    injection h with h
    rw [← h, foldl_processItem_region]
    rfl

/-- C10 witness: the hypothesis of `C10_region_hardcoded` holds for the
requested region "westus2" with the single on-demand item `itemOd`, and the
returned record's region is "eastus2". -/
theorem C10_region_hardcoded_witness :
    get_azure_vm_price "westus2" [itemOd] = some vpOd ∧
    vpOd.region = "eastus2" := by
  have h : get_azure_vm_price "westus2" [itemOd] = some vpOd := rfl
  exact ⟨h, C10_region_hardcoded "westus2" [itemOd] vpOd h⟩
